import Mathlib

/-!
Shallow embedding of the rank-resolution pipeline of the AmazonRanker
repository: the sponsored-signal classifier, the two-pass result merger,
the per-page rank calculator with boundary validation, the multi-page
search loop, input validation, and the retry/backoff controller.

Regular-expression tests from the TypeScript source are embedded through a
small executable matcher over an explicit pattern syntax; each pattern
definition below transcribes one regex literal from the source.  JavaScript
strings are modelled as Lean `String` (all inputs of interest are ASCII, so
UTF-16 length and code-point length agree), `Math.random()`-derived jitter
is passed as an explicit argument, and browser/DOM observations are fields
of explicit record types.
-/

/-- Character classes appearing in the source's regex literals. -/
inductive CClass where
  | lit (c : Char)
  | anyOf (cs : List Char)
  | anyNot (cs : List Char)
  | wordChar
  | anyCharNN
deriving DecidableEq

/-- Quantifiers appearing in the source's regex literals. -/
inductive Quant where
  | one
  | star
  | plus
  | opt
deriving DecidableEq

/-- One quantified atom of a regex pattern. -/
structure RItem where
  q : Quant
  cls : CClass
deriving DecidableEq

abbrev RSeq := List RItem

/-- Character-class membership.  For case-insensitive patterns (`ci = true`)
the pattern characters are stored lowercase and the subject character is
lowercased before comparison, mirroring the `/i` regex flag. -/
def classTest (ci : Bool) : CClass → Char → Bool
  | CClass.lit p, c => if ci then p == c.toLower else p == c
  | CClass.anyOf cs, c => cs.contains (if ci then c.toLower else c)
  | CClass.anyNot cs, c => !(cs.contains c)
  | CClass.wordChar, c => c.isAlpha || c.isDigit || c == '_'
  | CClass.anyCharNN, c => !(c == '\n' || c == '\r')

/-- Fuelled backtracking matcher: does the pattern match a prefix of `s`?
Along any recursion path either the subject or the pattern shrinks, so fuel
`(s.length + 1) * (ps.length + 1)` is always sufficient. -/
def matchHereF (ci : Bool) : Nat → List RItem → List Char → Bool
  | 0, _, _ => false
  | _ + 1, [], _ => true
  | fuel + 1, it :: ps, s =>
    match it.q, s with
    | Quant.one, [] => false
    | Quant.one, c :: rest => classTest ci it.cls c && matchHereF ci fuel ps rest
    | Quant.opt, [] => matchHereF ci fuel ps []
    | Quant.opt, c :: rest =>
        matchHereF ci fuel ps (c :: rest) ||
          (classTest ci it.cls c && matchHereF ci fuel ps rest)
    | Quant.star, [] => matchHereF ci fuel ps []
    | Quant.star, c :: rest =>
        matchHereF ci fuel ps (c :: rest) ||
          (classTest ci it.cls c && matchHereF ci fuel (it :: ps) rest)
    | Quant.plus, [] => false
    | Quant.plus, c :: rest =>
        classTest ci it.cls c &&
          matchHereF ci fuel (⟨Quant.star, it.cls⟩ :: ps) rest

/-- Match the pattern at the start of the subject. -/
def matchHere (ci : Bool) (ps : List RItem) (s : List Char) : Bool :=
  matchHereF ci ((s.length + 1) * (ps.length + 1)) ps s

/-- Regex `test`: does the pattern match anywhere in the subject? -/
def rtest (ci : Bool) (ps : List RItem) : List Char → Bool
  | [] => matchHere ci ps []
  | c :: rest => matchHere ci ps (c :: rest) || rtest ci ps rest

/-- Top-level regex alternation: any of the sequences matches somewhere. -/
def rtestAny (ci : Bool) (pats : List RSeq) (s : List Char) : Bool :=
  pats.any (fun p => rtest ci p s)

/-- Case-sensitive substring test (JavaScript `String.includes`). -/
def subStr : List Char → List Char → Bool
  | pat, [] => pat.isEmpty
  | pat, s@(_ :: rest) => pat.isPrefixOf s || subStr pat rest

/-- Fuelled non-overlapping occurrence count (JavaScript global-regex
`match` count for a pattern with no metacharacters). -/
def countOccurF : Nat → List Char → List Char → Nat
  | 0, _, _ => 0
  | _ + 1, _, [] => 0
  | fuel + 1, pat, s@(_ :: rest) =>
    if pat.isPrefixOf s then 1 + countOccurF fuel pat (s.drop pat.length)
    else countOccurF fuel pat rest

/-- Non-overlapping occurrence count of `pat` (assumed nonempty) in `s`. -/
def countOccur (pat s : List Char) : Nat :=
  countOccurF (s.length + 1) pat s

/-- Literal pattern: one `Quant.one` item per character.  For
case-insensitive use, callers supply the literal lowercased. -/
def lits (s : String) : RSeq :=
  s.data.map (fun c => ⟨Quant.one, CClass.lit c⟩)

def litC (c : Char) : RItem := ⟨Quant.one, CClass.lit c⟩

def oneOf (cs : List Char) : RItem := ⟨Quant.one, CClass.anyOf cs⟩

def optOf (cs : List Char) : RItem := ⟨Quant.opt, CClass.anyOf cs⟩

def starNot (cs : List Char) : RItem := ⟨Quant.star, CClass.anyNot cs⟩

def plusNot (cs : List Char) : RItem := ⟨Quant.plus, CClass.anyNot cs⟩

def starNN : RItem := ⟨Quant.star, CClass.anyCharNN⟩

def plusWord : RItem := ⟨Quant.plus, CClass.wordChar⟩

/-- The two quote characters of the regex class `["']`. -/
def quoteChars : List Char := ['"', '\'']

/-- JavaScript `String.toUpperCase` (ASCII behaviour). -/
def jsToUpper (s : String) : String := ⟨s.data.map Char.toUpper⟩

/-- JavaScript `String.startsWith`. -/
def jsStartsWith (s pre : String) : Bool := pre.data.isPrefixOf s.data

-- ======================================================================
-- Sponsored Classification Module (sponsoredClassifier.ts)
-- ======================================================================

/-- SponsoredSignals record of `types.ts`. -/
structure SponsoredSignals where
  hasSponsoredText : Bool
  hasBadgeContainer : Bool
  hasAriaLabel : Bool
  hasAdMetadata : Bool
  signalCount : Nat
deriving DecidableEq

/-- Minimum signals required to classify as sponsored. -/
def SPONSORED_THRESHOLD : Nat := 2

/-- Regex `/>([^<]*sponsored[^<]*)</i` tested by `detectSponsoredText`. -/
def textNodePat : RSeq :=
  [litC '>', starNot ['<']] ++ lits "sponsored" ++ [starNot ['<'], litC '<']

/-- Label-class patterns of `detectSponsoredText`. -/
def labelPats : List RSeq :=
  [lits "puis-sponsored-label", lits "s-sponsored-label",
   lits "sponsored-badge", lits "sp-sponsored"]

/-- Signal 1 of the classifier.  The source loop iterates a list of text
patterns but tests the same text-node regex in every iteration, so the
effective behaviour is a single test of that regex plus the label classes. -/
def detectSponsoredText (html : String) : Bool :=
  rtest true textNodePat html.data || rtestAny true labelPats html.data

/-- Container patterns of `detectBadgeContainer`. -/
def containerPats : List RSeq :=
  [lits "s-label-popover-default",
   lits "s-label-popover-hover",
   lits "puis-label-popover",
   lits "a-declarative" ++ [starNN] ++ lits "sponsored",
   lits "data-component-type=" ++ [litC '"'] ++ lits "sp-sponsored"]

/-- Regex `/data-component-type=["']?s-sponsored/i`. -/
def sSponsoredContainerPat : RSeq :=
  lits "data-component-type=" ++ [optOf quoteChars] ++ lits "s-sponsored"

/-- Signal 2 of the classifier. -/
def detectBadgeContainer (html : String) : Bool :=
  rtestAny true containerPats html.data ||
    rtest true sSponsoredContainerPat html.data

/-- ARIA patterns of `detectAriaLabels`. -/
def ariaPats : List RSeq :=
  [lits "aria-label=" ++ [oneOf quoteChars, starNot quoteChars] ++
     lits "sponsored" ++ [starNot quoteChars, oneOf quoteChars],
   lits "aria-describedby=" ++ [oneOf quoteChars, starNot quoteChars] ++
     lits "sponsored" ++ [starNot quoteChars, oneOf quoteChars],
   lits "role=" ++ [optOf quoteChars] ++ lits "complementary" ++
     [optOf quoteChars]]

/-- Signal 3 of the classifier. -/
def detectAriaLabels (html : String) : Bool :=
  rtestAny true ariaPats html.data

/-- Metadata patterns of `detectAdMetadata`. -/
def metadataPats : List RSeq :=
  [lits "data-ad-",
   lits "data-sp-",
   lits "data-click-el=" ++ [oneOf quoteChars, starNot quoteChars] ++
     lits "sp" ++ [starNot quoteChars, oneOf quoteChars],
   lits "data-csa-c-type=" ++ [optOf quoteChars] ++
     lits "sponsoredproducts" ++ [optOf quoteChars],
   lits "class=" ++ [oneOf quoteChars, starNot quoteChars] ++
     lits "sp-item" ++ [starNot quoteChars, oneOf quoteChars],
   lits "cel_widget_id=" ++ [oneOf quoteChars, starNot quoteChars] ++
     lits "adsense" ++ [starNot quoteChars, oneOf quoteChars],
   lits "cel_widget_id=" ++ [oneOf quoteChars, starNot quoteChars] ++
     lits "sp_" ++ [starNot quoteChars, oneOf quoteChars]]

/-- Regex `/sp[_-]?atf|sp[_-]?btf|sp[_-]?mtf/i`. -/
def spMarkerPats : List RSeq :=
  [lits "sp" ++ [optOf ['_', '-']] ++ lits "atf",
   lits "sp" ++ [optOf ['_', '-']] ++ lits "btf",
   lits "sp" ++ [optOf ['_', '-']] ++ lits "mtf"]

/-- Signal 4 of the classifier. -/
def detectAdMetadata (html : String) : Bool :=
  rtestAny true metadataPats html.data || rtestAny true spMarkerPats html.data

/-- classifySponsored of the sponsored classification module. -/
def classifySponsored (elementHtml : String) : SponsoredSignals :=
  let s1 := detectSponsoredText elementHtml
  let s2 := detectBadgeContainer elementHtml
  let s3 := detectAriaLabels elementHtml
  let s4 := detectAdMetadata elementHtml
  { hasSponsoredText := s1
    hasBadgeContainer := s2
    hasAriaLabel := s3
    hasAdMetadata := s4
    signalCount := ([s1, s2, s3, s4].filter (fun b => b)).length }

/-- isSponsored of the sponsored classification module. -/
def isSponsored (signals : SponsoredSignals) : Bool :=
  SPONSORED_THRESHOLD ≤ signals.signalCount

-- ======================================================================
-- Boundary Validation Module (boundaryValidator.ts)
-- ======================================================================

def BOUNDARY_FIRST : Nat := 3

def BOUNDARY_LAST : Nat := 3

/-- isInBoundaryZone of the boundary validation module.  The arithmetic is
done over `Int` to mirror JavaScript number subtraction. -/
def isInBoundaryZone (position totalResults : Nat) : Bool :=
  if position ≤ BOUNDARY_FIRST then true
  else if 0 < totalResults &&
      ((totalResults : Int) - (BOUNDARY_LAST : Int) < (position : Int)) then
    true
  else false

/-- validationChecks record of BoundaryValidationResult. -/
structure ValidationChecks where
  asinMatch : Bool
  structuralIntegrity : Bool
  contentPresence : Bool
  notInjection : Bool
deriving DecidableEq

/-- BoundaryValidationResult of the boundary validation module. -/
structure BoundaryValidationResult where
  isValid : Bool
  confidence : ℚ
  validationChecks : ValidationChecks

/-- Regex built from `data-asin=["']?` + the target identifier + `["']?`,
tested case-insensitively; the identifier literal is lowercased for the
case-insensitive matcher. -/
def dataAsinPat (asin : String) : RSeq :=
  lits "data-asin=" ++ [optOf quoteChars] ++
    lits ⟨asin.data.map Char.toLower⟩ ++ [optOf quoteChars]

/-- verifyAsinEmbedding: data-attribute pattern present and the identifier
occurs between 1 and 5 times (case-sensitive global count). -/
def verifyAsinEmbedding (asin html : String) : Bool :=
  if !(rtest true (dataAsinPat asin) html.data) then false
  else
    let asinOccurrences := countOccur asin.data html.data
    1 ≤ asinOccurrences && asinOccurrences ≤ 5

/-- Structural patterns of `verifyStructuralIntegrity`:
`/a[^>]*href=["'][^"']*\/dp\//i`, `/<img[^>]+src/i`,
`/a[^>]*href|button|input/i`. -/
def requiredStructures : List (List RSeq) :=
  [[lits "a" ++ [starNot ['>']] ++ lits "href=" ++
      [oneOf quoteChars, starNot quoteChars] ++ lits "/dp/"],
   [lits "<img" ++ [plusNot ['>']] ++ lits "src"],
   [lits "a" ++ [starNot ['>']] ++ lits "href", lits "button", lits "input"]]

/-- verifyStructuralIntegrity: at least 2 of 3 structures present. -/
def verifyStructuralIntegrity (html : String) : Bool :=
  let passed :=
    ((requiredStructures.filter (fun p => rtestAny true p html.data))).length
  2 ≤ passed

/-- Content patterns of `verifyContentPresence`. -/
def contentIndicators : List (List RSeq) :=
  [[lits "class=" ++ [oneOf quoteChars, starNot quoteChars] ++
      lits "price" ++ [starNot quoteChars, oneOf quoteChars]],
   [lits "class=" ++ [oneOf quoteChars, starNot quoteChars] ++
      lits "title" ++ [starNot quoteChars, oneOf quoteChars]],
   [lits "class=" ++ [oneOf quoteChars, starNot quoteChars] ++
      lits "rating" ++ [starNot quoteChars, oneOf quoteChars]],
   [lits "prime"],
   [lits "delivery", lits "shipping"]]

/-- verifyContentPresence: at least 2 of 5 indicators present. -/
def verifyContentPresence (html : String) : Bool :=
  let found :=
    ((contentIndicators.filter (fun p => rtestAny true p html.data))).length
  2 ≤ found

/-- Injected-widget patterns of `verifyNotInjection`. -/
def injectionPats : List RSeq :=
  [lits "editorial" ++ [optOf ['_', '-']] ++ lits "reco",
   lits "video" ++ [optOf ['_', '-']] ++ lits "widget",
   lits "brand" ++ [optOf ['_', '-']] ++ lits "story",
   lits "deals" ++ [optOf ['_', '-']] ++ lits "widget",
   lits "similar" ++ [optOf ['_', '-']] ++ lits "items",
   lits "related" ++ [optOf ['_', '-']] ++ lits "search",
   lits "frequently" ++ [optOf ['_', '-']] ++ lits "bought"]

/-- verifyNotInjection: no injected-widget marker and markup length at least
500.  The `position` argument is unused in the source body as well. -/
def verifyNotInjection (html : String) (_position : Nat) : Bool :=
  if rtestAny true injectionPats html.data then false
  else if html.length < 500 then false
  else true

/-- Count of passed checks, in the field-declaration order used by the
source's `Object.values`. -/
def countChecks (c : ValidationChecks) : Nat :=
  ([c.asinMatch, c.structuralIntegrity, c.contentPresence,
    c.notInjection].filter (fun b => b)).length

/-- validateBoundaryResult of the boundary validation module.  The
`totalResults` argument is unused in the source body as well. -/
def validateBoundaryResult (targetAsin elementHtml : String)
    (position _totalResults : Nat) : BoundaryValidationResult :=
  let checks : ValidationChecks :=
    { asinMatch := verifyAsinEmbedding targetAsin elementHtml
      structuralIntegrity := verifyStructuralIntegrity elementHtml
      contentPresence := verifyContentPresence elementHtml
      notInjection := verifyNotInjection elementHtml position }
  let passedChecks := countChecks checks
  { isValid := 3 ≤ passedChecks
    confidence := (passedChecks : ℚ) / 4
    validationChecks := checks }

/-- Regex `/<a[^>]*href/i` of `quickValidateBoundaryResult`. -/
def quickAnchorPat : RSeq := lits "<a" ++ [starNot ['>']] ++ lits "href"

/-- Regex `/price|rating|title/i` of `quickValidateBoundaryResult`. -/
def quickContentPats : List RSeq := [lits "price", lits "rating", lits "title"]

/-- quickValidateBoundaryResult of the boundary validation module. -/
def quickValidateBoundaryResult (targetAsin elementHtml : String) : Bool :=
  if !(subStr targetAsin.data elementHtml.data) then false
  else if !(rtest true quickAnchorPat elementHtml.data) then false
  else if !(rtestAny true quickContentPats elementHtml.data) then false
  else true

-- ======================================================================
-- Amazon Parser Module (amazonParser.ts)
-- ======================================================================

/-- Internal ExtractedResult record of the parser. -/
structure ExtractedResult where
  asin : String
  position : Nat
  isSponsored : Bool
  html : String
  sponsoredSignals : SponsoredSignals
deriving DecidableEq

/-- ParseResult record of the final parser variant.  The optional
`isSponsored` output field is modelled as `Option Bool` (`none` when the
source leaves it undefined). -/
structure ParseResult where
  found : Bool
  organicRank : Option Nat
  sponsoredRank : Option Nat
  position : Option Nat
  totalResults : Nat
  totalOrganicCount : Nat
  totalSponsoredCount : Nat
  boundaryValidated : Bool
  isSponsored : Option Bool
deriving DecidableEq

/-- Dedup key of the final merge variant (amazonParser.ts:906):
the template string combining identifier and classification. -/
def getKey (r : ExtractedResult) : String :=
  r.asin ++ "-" ++ (if r.isSponsored then "true" else "false")

/-- mergeResults of the final parser variant (amazonParser.ts:901-919),
keyed by identifier plus classification.  The JavaScript `Set` of seen keys
always equals the key set of the accumulated list, so membership is taken
over the accumulated list's keys. -/
def mergeResults (primary secondary : List ExtractedResult) :
    List ExtractedResult :=
  secondary.foldl
    (fun merged r =>
      if (merged.map getKey).contains (getKey r) then merged
      else merged ++ [r])
    primary

/-- mergeResults of the first parser variant (amazonParser.ts:124-139),
keyed by the identifier alone. -/
def mergeResults_v1 (primary secondary : List ExtractedResult) :
    List ExtractedResult :=
  secondary.foldl
    (fun merged r =>
      if (merged.map ExtractedResult.asin).contains r.asin then merged
      else merged ++ [r])
    primary

/-- Composite key as a pair, following the specification's words. -/
def keyPair (r : ExtractedResult) : String × Bool := (r.asin, r.isSponsored)

/-- Merge as specified: preserve pass A, then append exactly those pass-B
records whose `(identifier, isPromoted)` key has not occurred earlier. -/
def specMerge (primary secondary : List ExtractedResult) :
    List ExtractedResult :=
  secondary.foldl
    (fun merged r =>
      if (merged.map keyPair).contains (keyPair r) then merged
      else merged ++ [r])
    primary

/-- Mutable scan state of the rank-calculation loop. -/
structure ScanState where
  organicRankCounter : Nat
  sponsoredRankCounter : Nat
  foundOrganicRank : Option Nat
  foundSponsoredRank : Option Nat
  firstFoundPosition : Option Nat
  firstFoundResult : Option ExtractedResult
deriving DecidableEq

/-- One iteration of the calculateRanks loop (amazonParser.ts:943-973). -/
def scanStep (targetAsin : String) (st : ScanState) (r : ExtractedResult) :
    ScanState :=
  let isTargetAsin := jsToUpper r.asin == jsToUpper targetAsin
  if r.isSponsored then
    let sc := st.sponsoredRankCounter + 1
    if isTargetAsin && st.foundSponsoredRank.isNone then
      { st with
        sponsoredRankCounter := sc
        foundSponsoredRank := some sc
        firstFoundPosition :=
          if st.firstFoundPosition.isNone then some r.position
          else st.firstFoundPosition
        firstFoundResult :=
          if st.firstFoundPosition.isNone then some r
          else st.firstFoundResult }
    else { st with sponsoredRankCounter := sc }
  else
    let oc := st.organicRankCounter + 1
    if isTargetAsin && st.foundOrganicRank.isNone then
      { st with
        organicRankCounter := oc
        foundOrganicRank := some oc
        firstFoundPosition :=
          if st.firstFoundPosition.isNone then some r.position
          else st.firstFoundPosition
        firstFoundResult :=
          if st.firstFoundPosition.isNone then some r
          else st.firstFoundResult }
    else { st with organicRankCounter := oc }

/-- Initial scan state. -/
def initScanState : ScanState :=
  { organicRankCounter := 0
    sponsoredRankCounter := 0
    foundOrganicRank := none
    foundSponsoredRank := none
    firstFoundPosition := none
    firstFoundResult := none }

/-- Full scan of the merged list. -/
def calcState (results : List ExtractedResult) (targetAsin : String) :
    ScanState :=
  results.foldl (scanStep targetAsin) initScanState

/-- calculateRanks of the final parser variant (amazonParser.ts:925-1022).
The scan never breaks out of the loop; the totals are the loop counters at
the end.  The JavaScript truthiness test on `firstFoundPosition` is the
`p != 0` conjunct. -/
def calculateRanks (results : List ExtractedResult) (targetAsin : String) :
    ParseResult :=
  let st := calcState results targetAsin
  if st.foundOrganicRank.isNone && st.foundSponsoredRank.isNone then
    { found := false
      organicRank := none
      sponsoredRank := none
      position := none
      totalResults := results.length
      totalOrganicCount := st.organicRankCounter
      totalSponsoredCount := st.sponsoredRankCounter
      boundaryValidated := false
      isSponsored := none }
  else
    let boundaryValidated :=
      match st.firstFoundPosition, st.firstFoundResult with
      | some p, some r =>
        if (p != 0) && isInBoundaryZone p results.length then
          if quickValidateBoundaryResult targetAsin r.html then true
          else (validateBoundaryResult targetAsin r.html p
                  results.length).isValid
        else true
      | _, _ => true
    { found := true
      organicRank := st.foundOrganicRank
      sponsoredRank := st.foundSponsoredRank
      position := st.firstFoundPosition
      totalResults := results.length
      totalOrganicCount := st.organicRankCounter
      totalSponsoredCount := st.sponsoredRankCounter
      boundaryValidated := boundaryValidated
      isSponsored := some (st.foundSponsoredRank.isSome &&
        st.foundOrganicRank.isNone) }

-- ======================================================================
-- Scraper Module (scraper.ts): extraction fallback, validation, search
-- ======================================================================

/-- Observations of one live result element used by `extractSingleResult`.
The renderer-side queries (`querySelector` probes) are modelled as boolean
observations of the element. -/
structure DomElement where
  dataAsin : Option String
  outerHtml : String
  textContent : String
  innerHtml : String
  attributes : List (String × String)
  hasSpComponentQuery : Bool
  hasSponsoredIconQuery : Bool
  celWidgetId : String
  hasSpLinkQuery : Bool
  hasSpNestedQuery : Bool

/-- Patterns `/puis-sponsored|s-sponsored|sp-sponsored|adplaceholder/i` of
the direct-DOM fallback. -/
def fallbackClassPats : List RSeq :=
  [lits "puis-sponsored", lits "s-sponsored", lits "sp-sponsored",
   lits "adplaceholder"]

/-- Direct-DOM fallback check of `extractSingleResult`
(amazonParser.ts:786-821): returns the tag of the first matching probe. -/
def hasDirectSponsored (el : DomElement) : Option String :=
  if subStr "Sponsored".data el.textContent.data then some "text"
  else if rtest true (lits "sponsored") el.innerHtml.data then some "html"
  else if rtestAny true fallbackClassPats el.innerHtml.data then some "class"
  else if el.attributes.any (fun a =>
      jsStartsWith a.1 "data-sp-" || jsStartsWith a.1 "data-ad-" ||
        rtest true (lits "sponsored") a.2.data) then some "attr"
  else if el.hasSpComponentQuery then some "component"
  else if el.hasSponsoredIconQuery then some "icon"
  else if subStr "sp_".data el.celWidgetId.data ||
      subStr "ADSENSE".data el.celWidgetId.data then some "cel_widget"
  else if el.hasSpLinkQuery then some "sp-link"
  else if el.hasSpNestedQuery then some "sp-nested"
  else none

/-- extractSingleResult of the final parser variant
(amazonParser.ts:765-874): classify from markup, then, when below the
threshold, apply the direct-DOM fallback, overwriting the signal count. -/
def extractSingleResult (el : DomElement) (position : Nat) :
    Option ExtractedResult :=
  match el.dataAsin with
  | none => none
  | some asin =>
    if asin.length ≠ 10 then none
    else
      let sponsoredSignals := classifySponsored el.outerHtml
      let sponsored := isSponsored sponsoredSignals
      if !sponsored then
        match hasDirectSponsored el with
        | some _ =>
          some { asin := asin, position := position, isSponsored := true,
                 html := el.outerHtml,
                 sponsoredSignals :=
                   { sponsoredSignals with
                     signalCount := 1, hasSponsoredText := true } }
        | none =>
          some { asin := asin, position := position, isSponsored := false,
                 html := el.outerHtml, sponsoredSignals := sponsoredSignals }
      else
        some { asin := asin, position := position, isSponsored := true,
               html := el.outerHtml, sponsoredSignals := sponsoredSignals }

/-- ErrorCode union of `types.ts`. -/
inductive ErrorCode where
  | captcha_detected
  | timeout
  | parsing_failed
  | asin_not_found
  | unknown_error
  | invalid_input
  | browser_launch_failed
deriving DecidableEq, BEq

/-- getErrorMessage of the retry handler. -/
def getErrorMessage (code : ErrorCode) : String :=
  match code with
  | ErrorCode.captcha_detected =>
      "Amazon CAPTCHA detected. The request was blocked."
  | ErrorCode.timeout =>
      "Request timed out. Amazon may be slow or unreachable."
  | ErrorCode.parsing_failed =>
      "Failed to parse search results. Amazon layout may have changed."
  | ErrorCode.asin_not_found =>
      "ASIN not found in search results within scanned pages."
  | ErrorCode.browser_launch_failed =>
      "Failed to launch browser. Server resource issue."
  | ErrorCode.invalid_input =>
      "Invalid input provided. Check ASIN and keyword format."
  | ErrorCode.unknown_error =>
      "An unexpected error occurred."

/-- Error payload of a RankCheckResponse. -/
structure ErrorInfo where
  code : ErrorCode
  message : String
deriving DecidableEq

/-- RankResult of `types.ts`.  The `timestamp` field is an I/O value
(`new Date().toISOString()`) and is outside the model. -/
structure RankResult where
  asin : String
  keyword : String
  organicRank : Option Nat
  sponsoredRank : Option Nat
  pageFound : Option Nat
  positionOnPage : Option Nat
  totalResultsScanned : Nat
  scannedPages : Nat
deriving DecidableEq

/-- RankCheckResponse of `types.ts`. -/
structure RankCheckResponse where
  success : Bool
  data : Option RankResult
  error : Option ErrorInfo
deriving DecidableEq

/-- createErrorResponse of the retry handler. -/
def createErrorResponse (code : ErrorCode) : RankCheckResponse :=
  { success := false
    data := none
    error := some { code := code, message := getErrorMessage code } }

/-- RankCheckRequest of `types.ts`. -/
structure RankCheckRequest where
  asin : String
  keyword : String
  checkOrganic : Bool
  checkSponsored : Bool
  enableLocation : Bool
  locationPincode : Option String
deriving DecidableEq

/-- Keyword constraints of `types.ts`. -/
structure KeywordConstraints where
  minLength : Nat
  maxLength : Nat

def KEYWORD_CONSTRAINTS : KeywordConstraints :=
  { minLength := 2, maxLength := 200 }

/-- Test of `ASIN_PATTERN`, the regex over `[A-Z0-9]` of length ten. -/
def asinPatternTest (s : String) : Bool :=
  s.length == 10 &&
    s.data.all (fun c =>
      (decide ('A' ≤ c) && decide (c ≤ 'Z')) ||
        (decide ('0' ≤ c) && decide (c ≤ '9')))

/-- Regex `/on\w+=/i` of the dangerous-pattern list. -/
def onHandlerPat : RSeq := lits "on" ++ [plusWord] ++ lits "="

/-- The dangerous-pattern scan of `validateInput`: `/<script/i`,
`/javascript:/i`, `/on\w+=/i`, `/data:/i`, all tested on the raw keyword. -/
def hasDangerousPattern (kw : String) : Bool :=
  rtest true (lits "<script") kw.data ||
    rtest true (lits "javascript:") kw.data ||
    rtest true onHandlerPat kw.data ||
    rtest true (lits "data:") kw.data

/-- validateInput of the scraper module (scraper.ts, both variants).  Note
the length checks are applied to the keyword exactly as supplied — the
source does not trim before measuring. -/
def validateInput (req : RankCheckRequest) : Option ErrorCode :=
  if req.asin == "" || !(asinPatternTest (jsToUpper req.asin)) then
    some ErrorCode.invalid_input
  else if req.keyword == "" ||
      req.keyword.length < KEYWORD_CONSTRAINTS.minLength ||
      KEYWORD_CONSTRAINTS.maxLength < req.keyword.length then
    some ErrorCode.invalid_input
  else if hasDangerousPattern req.keyword then
    some ErrorCode.invalid_input
  else none

/-- Length of the keyword after JavaScript `trim`, used to state the
specification's trimmed-length requirement. -/
def trimmedLength (s : String) : Nat :=
  ((s.data.dropWhile Char.isWhitespace).reverse.dropWhile
    Char.isWhitespace).length

/-- Renderer observations for one search page: CAPTCHA page, no-results
page, load failure in `waitForResults`, and the two extraction passes of
classified records. -/
structure PageFetch where
  captcha : Bool
  noResults : Bool
  loadFailed : Bool
  passA : List ExtractedResult
  passB : List ExtractedResult

/-- parseSearchResults on one page: merge the two passes and calculate
ranks (amazonParser.ts:678-713, with the I/O phases abstracted into the
page's recorded passes). -/
def parsePage (f : PageFetch) (asin : String) : ParseResult :=
  calculateRanks (mergeResults f.passA f.passB) asin

/-- Outcome of `executeSearch`: either a thrown error (caught by the retry
loop of `checkAsinRank`) or a returned response. -/
inductive SearchOutcome where
  | thrown (msg : String)
  | response (r : RankCheckResponse)
deriving DecidableEq

/-- The not-found success returned after the page loop (scraper.ts:302-316):
null ranks and `scannedPages = maxPages`. -/
def notFoundResponse (asin keyword : String) (totalScanned maxPages : Nat) :
    RankCheckResponse :=
  { success := true
    data := some
      { asin := asin, keyword := keyword
        organicRank := none, sponsoredRank := none
        pageFound := none, positionOnPage := none
        totalResultsScanned := totalScanned
        scannedPages := maxPages }
    error := none }

/-- The page loop of `executeSearch` (scraper.ts:234-316).  `rem` is the
number of page iterations the `pageNum ≤ maxPages` guard still allows;
callers start it at `maxPages` with `pageNum = 1`. -/
def searchGo (asin keyword : String) (maxPages : Nat)
    (fetch : Nat → PageFetch) :
    Nat → Nat → Nat → Nat → Nat → SearchOutcome
  | 0, _, _, _, totalScanned =>
    SearchOutcome.response (notFoundResponse asin keyword totalScanned maxPages)
  | rem + 1, pageNum, cumOrg, cumSpon, totalScanned =>
    let f := fetch pageNum
    if f.captcha then SearchOutcome.thrown "CAPTCHA detected"
    else if f.noResults then
      if pageNum == 1 then
        SearchOutcome.response (createErrorResponse ErrorCode.asin_not_found)
      else
        SearchOutcome.response
          (notFoundResponse asin keyword totalScanned maxPages)
    else if f.loadFailed then
      SearchOutcome.thrown "Page failed to load properly"
    else
      let pr := parsePage f asin
      let ts := totalScanned + pr.totalResults
      if pr.found then
        SearchOutcome.response
          { success := true
            data := some
              { asin := asin, keyword := keyword
                organicRank := pr.organicRank.map (fun r => cumOrg + r)
                sponsoredRank := pr.sponsoredRank.map (fun r => cumSpon + r)
                pageFound := some pageNum
                positionOnPage := pr.position
                totalResultsScanned := ts
                scannedPages := pageNum }
            error := none }
      else
        searchGo asin keyword maxPages fetch rem (pageNum + 1)
          (cumOrg + pr.totalOrganicCount) (cumSpon + pr.totalSponsoredCount) ts

/-- executeSearch of the scraper module: the page loop started at page 1
with zeroed cumulative counters. -/
def executeSearch (asin keyword : String) (maxPages : Nat)
    (fetch : Nat → PageFetch) : SearchOutcome :=
  searchGo asin keyword maxPages fetch maxPages 1 0 0 0

/-- Sum of `totalOrganicCount` over the pages `p, p+1, ..., p+k-1`. -/
def sumOrg (fetch : Nat → PageFetch) (asin : String) : Nat → Nat → Nat
  | _, 0 => 0
  | p, k + 1 =>
    (parsePage (fetch p) asin).totalOrganicCount + sumOrg fetch asin (p + 1) k

/-- Sum of `totalSponsoredCount` over the pages `p, p+1, ..., p+k-1`. -/
def sumSpon (fetch : Nat → PageFetch) (asin : String) : Nat → Nat → Nat
  | _, 0 => 0
  | p, k + 1 =>
    (parsePage (fetch p) asin).totalSponsoredCount + sumSpon fetch asin (p + 1) k

/-- Sum of `totalResults` over the pages `p, p+1, ..., p+k-1`. -/
def sumTot (fetch : Nat → PageFetch) (asin : String) : Nat → Nat → Nat
  | _, 0 => 0
  | p, k + 1 =>
    (parsePage (fetch p) asin).totalResults + sumTot fetch asin (p + 1) k

/-- A page that the loop passes through without returning: no CAPTCHA, no
no-results indicator, loaded, and the target not found on it. -/
def cleanNotFound (f : PageFetch) (asin : String) : Prop :=
  f.captcha = false ∧ f.noResults = false ∧ f.loadFailed = false ∧
    (parsePage f asin).found = false

-- ======================================================================
-- Retry Handler Module (retryHandler.ts) and the checkAsinRank loop
-- ======================================================================

/-- RetryConfig of the retry handler. -/
structure RetryConfig where
  maxRetries : Nat
  baseBackoffMs : Nat
  maxBackoffMs : Nat
  retryableErrors : List ErrorCode

def DEFAULT_RETRY_CONFIG : RetryConfig :=
  { maxRetries := 2
    baseBackoffMs := 2000
    maxBackoffMs := 8000
    retryableErrors :=
      [ErrorCode.captcha_detected, ErrorCode.timeout,
       ErrorCode.parsing_failed] }

/-- calculateBackoff of the retry handler (retryHandler.ts:52-65).  The
jitter `Math.floor(Math.random() * 500)` is passed explicitly; callers
establish `jitter < 500`.  `Math.pow` is exact on these magnitudes. -/
def calculateBackoff (attempt : Nat) (config : RetryConfig)
    (jitter : Nat) : Nat :=
  let exponentialDelay := config.baseBackoffMs * 2 ^ attempt
  let totalDelay := exponentialDelay + jitter
  min totalDelay config.maxBackoffMs

/-- The retry configuration built inside `checkAsinRank`: the defaults with
`maxRetries` and `baseBackoffMs` taken from the scraper configuration. -/
def buildRetryConfig (maxRetries baseBackoffMs : Nat) : RetryConfig :=
  { DEFAULT_RETRY_CONFIG with
    maxRetries := maxRetries, baseBackoffMs := baseBackoffMs }

/-- Outcome of one attempt body of `checkAsinRank` (browser launch plus
`executeSearch`): a returned response, or a thrown error already put
through `classifyError`. -/
inductive AttemptOutcome where
  | ok (r : RankCheckResponse)
  | thrownErr (code : ErrorCode)

/-- The retry loop of `checkAsinRank` (scraper.ts:60-103): on a retryable
error with attempts remaining it sleeps `baseBackoffMs * 2 ^ attempt` — no
jitter and no cap — before the next attempt.  Returns the response together
with the list of applied sleep delays. -/
def checkLoop (config : RetryConfig) :
    List AttemptOutcome → Nat → ErrorCode → RankCheckResponse × List Nat
  | [], _, lastError => (createErrorResponse lastError, [])
  | o :: rest, attempt, _ =>
    match o with
    | AttemptOutcome.ok r => (r, [])
    | AttemptOutcome.thrownErr e =>
      if !(config.retryableErrors.contains e) then (createErrorResponse e, [])
      else if attempt < config.maxRetries then
        let backoff := config.baseBackoffMs * 2 ^ attempt
        let next := checkLoop config rest (attempt + 1) e
        (next.1, backoff :: next.2)
      else (createErrorResponse e, [])

/-- checkAsinRank's retry loop started at attempt 0 with the initial
`lastError = unknown_error`. -/
def checkAsinRank (config : RetryConfig) (outcomes : List AttemptOutcome) :
    RankCheckResponse × List Nat :=
  checkLoop config outcomes 0 ErrorCode.unknown_error

-- ======================================================================
-- Concrete values used by the witnesses and counterexamples
-- ======================================================================

/-- A signal vector with no detections. -/
def sig0 : SponsoredSignals :=
  { hasSponsoredText := false, hasBadgeContainer := false,
    hasAriaLabel := false, hasAdMetadata := false, signalCount := 0 }

/-- The target identifier used by the concrete pages below. -/
def demoAsin : String := "B0TARGET01"

/-- An organic record for an identifier. -/
def recOrganicX : ExtractedResult :=
  { asin := "B000000001", position := 1, isSponsored := false,
    html := "h1", sponsoredSignals := sig0 }

/-- A promoted record for the same identifier as `recOrganicX`. -/
def recPromotedX : ExtractedResult :=
  { asin := "B000000001", position := 1, isSponsored := true,
    html := "h2", sponsoredSignals := sig0 }

/-- A non-target organic record. -/
def recFiller : ExtractedResult :=
  { asin := "B00OTHER02", position := 1, isSponsored := false,
    html := "x", sponsoredSignals := sig0 }

/-- Markup under 500 characters that passes the quick boundary check:
identifier substring, anchor with href, and a price keyword. -/
def quickPassHtml : String :=
  "<div data-asin=B0TARGET01><a href=/dp/x>price</a></div>"

/-- The target found at position 2 with short, quick-valid markup. -/
def recQuickPass : ExtractedResult :=
  { asin := demoAsin, position := 2, isSponsored := false,
    html := quickPassHtml, sponsoredSignals := sig0 }

/-- Page list with the target at boundary position 2 and short markup. -/
def quickPassPage : List ExtractedResult := [recFiller, recQuickPass]

/-- The target found at position 2 with markup failing every check. -/
def recShortTarget : ExtractedResult :=
  { asin := demoAsin, position := 2, isSponsored := false,
    html := "short", sponsoredSignals := sig0 }

/-- Page list with the target at boundary position 2 and invalid markup. -/
def shortPage : List ExtractedResult := [recFiller, recShortTarget]

/-- A clean page that does not contain the target. -/
def pageNotFound : PageFetch :=
  { captcha := false, noResults := false, loadFailed := false,
    passA := [recFiller], passB := [] }

/-- The target as the first organic record of a page. -/
def recTargetP1 : ExtractedResult :=
  { asin := demoAsin, position := 1, isSponsored := false,
    html := quickPassHtml, sponsoredSignals := sig0 }

/-- A clean page containing the target. -/
def pageFound : PageFetch :=
  { captcha := false, noResults := false, loadFailed := false,
    passA := [recTargetP1], passB := [] }

/-- An empty clean page. -/
def blankPage : PageFetch :=
  { captcha := false, noResults := false, loadFailed := false,
    passA := [], passB := [] }

/-- A page showing the no-results indicator. -/
def pageNoResults : PageFetch :=
  { captcha := false, noResults := true, loadFailed := false,
    passA := [], passB := [] }

/-- Two-page scan: target absent from page 1, found on page 2. -/
def demoFetch : Nat → PageFetch := fun n =>
  if n == 1 then pageNotFound else if n == 2 then pageFound else blankPage

/-- Scan whose very first page shows the no-results indicator. -/
def fetchNR1 : Nat → PageFetch := fun _ => pageNoResults

/-- Scan with a clean target-free page 1 and a no-results page 2. -/
def fetchNR2 : Nat → PageFetch := fun n =>
  if n == 1 then pageNotFound else pageNoResults

/-- The retry configuration `checkAsinRank` builds from a scraper
configuration with `maxRetries = 2` and `baseBackoffMs = 8000`. -/
def cfg8000 : RetryConfig := buildRetryConfig 2 8000

/-- An arbitrary successful response for the final attempt. -/
def respOk : RankCheckResponse := notFoundResponse "A" "k" 0 1

/-- Two retryable failures followed by a success. -/
def demoOutcomes : List AttemptOutcome :=
  [AttemptOutcome.thrownErr ErrorCode.timeout,
   AttemptOutcome.thrownErr ErrorCode.timeout,
   AttemptOutcome.ok respOk]

/-- A request whose keyword has raw length 2 but trimmed length 1. -/
def reqTrimGap : RankCheckRequest :=
  { asin := "B000000001", keyword := "a ", checkOrganic := true,
    checkSponsored := true, enableLocation := false, locationPincode := none }

/-- A request with a plainly valid keyword. -/
def reqGood : RankCheckRequest :=
  { asin := "B000000001", keyword := "wireless mouse", checkOrganic := true,
    checkSponsored := true, enableLocation := false, locationPincode := none }

/-- Markup that triggers none of the four classifier signals. -/
def benignHtml : String := "<div>x</div>"

/-- An element whose markup yields zero signals but whose text content
contains the literal word detected by the direct-DOM fallback. -/
def demoElem : DomElement :=
  { dataAsin := some demoAsin, outerHtml := benignHtml,
    textContent := "Sponsored listing", innerHtml := "x",
    attributes := [], hasSpComponentQuery := false,
    hasSponsoredIconQuery := false, celWidgetId := "",
    hasSpLinkQuery := false, hasSpNestedQuery := false }

/-- The record the fallback path produces for `demoElem`. -/
def recC10 : ExtractedResult :=
  { asin := demoAsin, position := 1, isSponsored := true,
    html := benignHtml,
    sponsoredSignals :=
      { hasSponsoredText := true, hasBadgeContainer := false,
        hasAriaLabel := false, hasAdMetadata := false, signalCount := 1 } }

-- ======================================================================
-- Helper lemmas
-- ======================================================================

/-- The template-string dedup key determines and is determined by the
`(identifier, classification)` pair. -/
theorem getKey_eq_iff (a b : ExtractedResult) :
    getKey a = getKey b ↔ a.asin = b.asin ∧ a.isSponsored = b.isSponsored := by
  have hT : ("-" : String).data ++ ("true" : String).data =
      ['-', 't', 'r', 'u', 'e'] := rfl
  have hF : ("-" : String).data ++ ("false" : String).data =
      ['-', 'f', 'a', 'l', 's', 'e'] := rfl
  cases ha : a.isSponsored <;> cases hb : b.isSponsored <;>
    simp only [getKey, ha, hb, if_true, if_false, Bool.false_eq_true,
      Bool.true_eq_false, and_false, and_true, iff_false] <;>
    [skip; skip; skip; skip]
  case false.false =>
    constructor
    · intro h
      have hd := congrArg String.data h
      simp only [String.data_append] at hd
      rw [List.append_assoc, List.append_assoc, hF] at hd
      exact String.ext (List.append_cancel_right hd)
    · intro h; rw [h]
  case false.true =>
    intro h
    have hd := congrArg String.data h
    simp only [String.data_append] at hd
    rw [List.append_assoc, List.append_assoc, hF, hT] at hd
    have h5 := congrArg (fun l => (l.reverse).take 5) hd
    simp only [List.reverse_append] at h5
    rw [show (['-', 'f', 'a', 'l', 's', 'e'] : List Char).reverse =
        ['e', 's', 'l', 'a', 'f', '-'] from rfl,
      show (['-', 't', 'r', 'u', 'e'] : List Char).reverse =
        ['e', 'u', 'r', 't', '-'] from rfl,
      List.take_append_of_le_length (by decide),
      List.take_append_of_le_length (by decide)] at h5
    exact absurd h5 (by decide)
  case true.false =>
    intro h
    have hd := congrArg String.data h
    simp only [String.data_append] at hd
    rw [List.append_assoc, List.append_assoc, hF, hT] at hd
    have h5 := congrArg (fun l => (l.reverse).take 5) hd
    simp only [List.reverse_append] at h5
    rw [show (['-', 'f', 'a', 'l', 's', 'e'] : List Char).reverse =
        ['e', 's', 'l', 'a', 'f', '-'] from rfl,
      show (['-', 't', 'r', 'u', 'e'] : List Char).reverse =
        ['e', 'u', 'r', 't', '-'] from rfl,
      List.take_append_of_le_length (by decide),
      List.take_append_of_le_length (by decide)] at h5
    exact absurd h5 (by decide)
  case true.true =>
    constructor
    · intro h
      have hd := congrArg String.data h
      simp only [String.data_append] at hd
      rw [List.append_assoc, List.append_assoc, hT] at hd
      exact String.ext (List.append_cancel_right hd)
    · intro h; rw [h]

/-- Boolean form of the key agreement. -/
theorem keyBeq_eq (a b : ExtractedResult) :
    (getKey a == getKey b) = (keyPair a == keyPair b) := by
  rw [Bool.eq_iff_iff]
  simp only [beq_iff_eq, getKey_eq_iff, keyPair, Prod.mk.injEq]

/-- Seen-key membership agrees between the string key and the pair key. -/
theorem containsKey_eq (l : List ExtractedResult) (r : ExtractedResult) :
    ((l.map getKey).contains (getKey r)) =
      ((l.map keyPair).contains (keyPair r)) := by
  induction l with
  | nil => rfl
  | cons a l ih =>
    simp only [List.map_cons, List.contains_cons, ih, keyBeq_eq]

/-- A fold that only ever appends extends its accumulator. -/
theorem foldl_append_extends (step : List ExtractedResult → ExtractedResult →
      List ExtractedResult)
    (hstep : ∀ acc r, step acc r = acc ∨ step acc r = acc ++ [r]) :
    ∀ (l : List ExtractedResult) (acc : List ExtractedResult),
      ∃ t, l.foldl step acc = acc ++ t := by
  intro l
  induction l with
  | nil => intro acc; exact ⟨[], by simp⟩
  | cons r l ih =>
    intro acc
    rcases hstep acc r with h | h
    · obtain ⟨t, ht⟩ := ih (step acc r)
      exact ⟨t, by rw [List.foldl_cons, ht, h]⟩
    · obtain ⟨t, ht⟩ := ih (step acc r)
      exact ⟨[r] ++ t, by rw [List.foldl_cons, ht, h, List.append_assoc]⟩

/-- The scan counters count exactly the organic and the sponsored records
of the scanned list, on top of their initial values. -/
theorem calcState_counters (t : String) (l : List ExtractedResult) :
    ∀ st : ScanState,
      (l.foldl (scanStep t) st).organicRankCounter =
        st.organicRankCounter +
          (l.filter (fun r => !r.isSponsored)).length ∧
      (l.foldl (scanStep t) st).sponsoredRankCounter =
        st.sponsoredRankCounter +
          (l.filter (fun r => r.isSponsored)).length := by
  induction l with
  | nil => intro st; simp
  | cons r l ih =>
    intro st
    have h := ih (scanStep t st r)
    have hstep : (scanStep t st r).organicRankCounter =
        st.organicRankCounter + (if r.isSponsored then 0 else 1) ∧
        (scanStep t st r).sponsoredRankCounter =
          st.sponsoredRankCounter + (if r.isSponsored then 1 else 0) := by
      unfold scanStep
      cases hrs : r.isSponsored <;> simp <;> split <;> simp
    rw [List.foldl_cons]
    refine ⟨?_, ?_⟩
    · rw [h.1, hstep.1]
      cases hrs : r.isSponsored
      · simp [List.filter_cons, hrs]
        omega
      · simp [List.filter_cons, hrs]
    · rw [h.2, hstep.2]
      cases hrs : r.isSponsored
      · simp [List.filter_cons, hrs]
      · simp [List.filter_cons, hrs]
        omega

/-- One scan step preserves the link between the latched position and the
latched ranks. -/
theorem scanStep_inv (t : String) (st : ScanState) (r : ExtractedResult)
    (h : st.firstFoundPosition = none ∨ st.foundOrganicRank ≠ none ∨
      st.foundSponsoredRank ≠ none) :
    (scanStep t st r).firstFoundPosition = none ∨
      (scanStep t st r).foundOrganicRank ≠ none ∨
      (scanStep t st r).foundSponsoredRank ≠ none := by
  unfold scanStep
  by_cases hs : r.isSponsored = true
  · by_cases hc : (jsToUpper r.asin == jsToUpper t &&
        st.foundSponsoredRank.isNone) = true
    · refine Or.inr (Or.inr ?_)
      simp [hs, hc]
    · simp only [Bool.not_eq_true] at hc
      simpa [hs, hc] using h
  · simp only [Bool.not_eq_true] at hs
    by_cases hc : (jsToUpper r.asin == jsToUpper t &&
        st.foundOrganicRank.isNone) = true
    · refine Or.inr (Or.inl ?_)
      simp [hs, hc]
    · simp only [Bool.not_eq_true] at hc
      simpa [hs, hc] using h

/-- Whenever the scan has latched a first-found position, it has latched at
least one of the two category ranks. -/
theorem calcState_first_found (t : String) (l : List ExtractedResult) :
    ∀ st : ScanState,
      (st.firstFoundPosition = none ∨ st.foundOrganicRank ≠ none ∨
        st.foundSponsoredRank ≠ none) →
      ((l.foldl (scanStep t) st).firstFoundPosition = none ∨
        (l.foldl (scanStep t) st).foundOrganicRank ≠ none ∨
        (l.foldl (scanStep t) st).foundSponsoredRank ≠ none) := by
  induction l with
  | nil => intro st h; simpa using h
  | cons r l ih =>
    intro st h
    rw [List.foldl_cons]
    exact ih (scanStep t st r) (scanStep_inv t st r h)

/-- Scanning clean target-free pages only advances the page number and adds
the pages' per-category totals to the cumulative counters. -/
theorem searchGo_skip (asin kw : String) (maxPages : Nat)
    (fetch : Nat → PageFetch) (k : Nat) :
    ∀ (rem pageNum cumOrg cumSpon ts : Nat),
      (∀ j, j < k → cleanNotFound (fetch (pageNum + j)) asin) →
      searchGo asin kw maxPages fetch (k + rem) pageNum cumOrg cumSpon ts =
        searchGo asin kw maxPages fetch rem (pageNum + k)
          (cumOrg + sumOrg fetch asin pageNum k)
          (cumSpon + sumSpon fetch asin pageNum k)
          (ts + sumTot fetch asin pageNum k) := by
  induction k with
  | zero =>
    intro rem pageNum cumOrg cumSpon ts _
    simp [sumOrg, sumSpon, sumTot]
  | succ k ih =>
    intro rem pageNum cumOrg cumSpon ts h
    have h0 := h 0 (Nat.succ_pos k)
    rw [Nat.add_zero] at h0
    obtain ⟨hcap, hnr, hld, hfound⟩ := h0
    have hshift : ∀ j, j < k → cleanNotFound (fetch (pageNum + 1 + j)) asin := by
      intro j hj
      have hh := h (j + 1) (by omega)
      rw [show pageNum + (j + 1) = pageNum + 1 + j from by omega] at hh
      exact hh
    rw [show k + 1 + rem = (k + rem) + 1 from by omega]
    simp only [searchGo, hcap, hnr, hld, hfound, Bool.false_eq_true, if_false]
    rw [ih rem (pageNum + 1) (cumOrg + (parsePage (fetch pageNum) asin).totalOrganicCount)
      (cumSpon + (parsePage (fetch pageNum) asin).totalSponsoredCount)
      (ts + (parsePage (fetch pageNum) asin).totalResults) hshift]
    rw [show pageNum + 1 + k = pageNum + (k + 1) from by omega]
    simp only [sumOrg, sumSpon, sumTot, Nat.add_assoc]

/-- Every sleep the checkAsinRank retry loop applies is the raw exponential
`baseBackoffMs * 2 ^ i` of some attempt index below the retry bound. -/
theorem checkLoop_delays (config : RetryConfig) :
    ∀ (outcomes : List AttemptOutcome) (attempt : Nat) (le : ErrorCode)
      (d : Nat), d ∈ (checkLoop config outcomes attempt le).2 →
      ∃ i, attempt ≤ i ∧ i < config.maxRetries ∧
        d = config.baseBackoffMs * 2 ^ i := by
  intro outcomes
  induction outcomes with
  | nil => intro attempt le d hd; simp [checkLoop] at hd
  | cons o rest ih =>
    intro attempt le d hd
    cases o with
    | ok r => simp [checkLoop] at hd
    | thrownErr e =>
      simp only [checkLoop] at hd
      by_cases hr : (config.retryableErrors.contains e) = true
      · simp only [hr, Bool.not_true, Bool.false_eq_true, if_false] at hd
        by_cases ha : attempt < config.maxRetries
        · simp only [ha, if_true, List.mem_cons] at hd
          rcases hd with hd | hd
          · exact ⟨attempt, Nat.le_refl _, ha, hd⟩
          · obtain ⟨i, h1, h2, h3⟩ := ih (attempt + 1) e d hd
            exact ⟨i, by omega, h2, h3⟩
        · simp only [ha, if_false] at hd
          simp at hd
      · simp only [Bool.not_eq_true] at hr
        simp [hr] at hd

-- ======================================================================
-- Claim theorems
-- ======================================================================

/-- C1 (amended): the final merge variant deduplicates by the composite
key `(identifier, isPromoted)` — it coincides with the specification-style
merge keyed by that pair, and its output extends pass A in order.  (The
earlier merge variant keys by identifier alone; see the counterexample.) -/
theorem c1_merge_composite_key (primary secondary : List ExtractedResult) :
    mergeResults primary secondary = specMerge primary secondary ∧
    ∃ t, mergeResults primary secondary = primary ++ t := by
  constructor
  · unfold mergeResults specMerge
    apply List.foldl_ext
    intro acc r _
    rw [containsKey_eq]
  · unfold mergeResults
    apply foldl_append_extends
    intro acc r
    by_cases h : ((acc.map getKey).contains (getKey r)) = true
    · left; rw [if_pos h]
    · right; rw [if_neg h]

/-- C1 counterexample: the merge at amazonParser.ts:124-139 deduplicates by
identifier alone, so a pass-B record sharing the identifier of a pass-A
record with the opposite classification is dropped, contradicting the
claimed composite-key policy at that source location. -/
theorem c1_counterexample :
    mergeResults_v1 [recOrganicX] [recPromotedX] = [recOrganicX] ∧
    recPromotedX.asin = recOrganicX.asin ∧
    recPromotedX.isSponsored ≠ recOrganicX.isSponsored := by decide

/-- C2: the rank calculation never short-circuits — for every merged list
and every target, the returned `totalOrganicCount` and
`totalSponsoredCount` are the counts of organic and of promoted records in
the whole list. -/
theorem c2_totals_full_scan (results : List ExtractedResult)
    (targetAsin : String) :
    (calculateRanks results targetAsin).totalOrganicCount =
      (results.filter (fun r => !r.isSponsored)).length ∧
    (calculateRanks results targetAsin).totalSponsoredCount =
      (results.filter (fun r => r.isSponsored)).length := by
  have h := calcState_counters targetAsin results initScanState
  have h1 : (calcState results targetAsin).organicRankCounter =
      (results.filter (fun r => !r.isSponsored)).length := by
    simpa [calcState, initScanState] using h.1
  have h2 : (calcState results targetAsin).sponsoredRankCounter =
      (results.filter (fun r => r.isSponsored)).length := by
    simpa [calcState, initScanState] using h.2
  unfold calculateRanks
  dsimp only
  split <;> simp [h1, h2]

/-- C5: `isSponsored` holds exactly when the signal count reaches the
threshold 2 — false at counts 0 and 1, true at counts 2, 3 and 4. -/
theorem c5_threshold (s : SponsoredSignals) :
    (isSponsored s = true ↔ 2 ≤ s.signalCount) ∧
    (s.signalCount = 0 ∨ s.signalCount = 1 → isSponsored s = false) ∧
    ((s.signalCount = 2 ∨ s.signalCount = 3 ∨ s.signalCount = 4) →
      isSponsored s = true) := by
  unfold isSponsored SPONSORED_THRESHOLD
  refine ⟨by simp, ?_, ?_⟩
  · intro h
    rcases h with h | h <;> simp [h]
  · intro h
    rcases h with h | h | h <;> simp [h]

/-- C5 witness: concrete signal vectors at counts 0 and 2. -/
theorem c5_witness :
    isSponsored sig0 = false ∧
    isSponsored { sig0 with signalCount := 2 } = true :=
  ⟨(c5_threshold sig0).2.1 (Or.inl rfl),
   (c5_threshold { sig0 with signalCount := 2 }).2.2 (Or.inl rfl)⟩

/-- C7: full boundary validation is valid exactly when at least 3 of the 4
checks pass, and its confidence is the passed-check count divided by 4. -/
theorem c7_validation_aggregate (targetAsin elementHtml : String)
    (position totalResults : Nat) :
    ((validateBoundaryResult targetAsin elementHtml position
        totalResults).isValid = true ↔
      3 ≤ countChecks (validateBoundaryResult targetAsin elementHtml position
        totalResults).validationChecks) ∧
    (validateBoundaryResult targetAsin elementHtml position
        totalResults).confidence =
      (countChecks (validateBoundaryResult targetAsin elementHtml position
        totalResults).validationChecks : ℚ) / 4 := by
  constructor
  · simp [validateBoundaryResult]
  · rfl

/-- C10: the extraction pipeline can emit a record tagged promoted whose
stored signal count is 1 — when the markup classifier stays below the
2-signal threshold but the direct-DOM fallback fires, the record is marked
sponsored with `signalCount` overwritten to 1 and `hasSponsoredText` set,
diverging from the derived threshold rule. -/
theorem c10_fallback_override :
    extractSingleResult demoElem 1 = some recC10 ∧
    recC10.isSponsored = true ∧
    recC10.sponsoredSignals.signalCount = 1 ∧
    recC10.sponsoredSignals.hasSponsoredText = true ∧
    isSponsored (classifySponsored demoElem.outerHtml) = false ∧
    isSponsored recC10.sponsoredSignals = false := by decide

/-- C6 (amended): a target first found at a nonzero boundary-zone position
is always returned with `found = true`, and `boundaryValidated = false`
holds exactly when its markup fails the quick validation and the full
validation is invalid; markup under 500 characters always fails the
not-injection check, yet alone does not force `boundaryValidated = false`,
since a match passing the quick check (or whose full validation is valid)
is accepted — see the counterexample. -/
theorem c6_boundary_amended (results : List ExtractedResult)
    (targetAsin : String) (p : Nat) (r : ExtractedResult)
    (hpos : (calcState results targetAsin).firstFoundPosition = some p)
    (hres : (calcState results targetAsin).firstFoundResult = some r)
    (hp0 : p ≠ 0)
    (hzone : isInBoundaryZone p results.length = true) :
    (calculateRanks results targetAsin).found = true ∧
    ((calculateRanks results targetAsin).boundaryValidated = false ↔
      (quickValidateBoundaryResult targetAsin r.html = false ∧
        (validateBoundaryResult targetAsin r.html p
          results.length).isValid = false)) ∧
    (r.html.length < 500 →
      (validateBoundaryResult targetAsin r.html p
        results.length).validationChecks.notInjection = false) := by
  have hinv := calcState_first_found targetAsin results initScanState
    (Or.inl rfl)
  rw [show results.foldl (scanStep targetAsin) initScanState =
    calcState results targetAsin from rfl] at hinv
  have hrank : ((calcState results targetAsin).foundOrganicRank.isNone &&
      (calcState results targetAsin).foundSponsoredRank.isNone) = false := by
    rcases hinv with hinv | hinv | hinv
    · rw [hinv] at hpos; cases hpos
    · rcases ho : (calcState results targetAsin).foundOrganicRank with _ | v
      · exact absurd ho hinv
      · simp [ho]
    · rcases ho : (calcState results targetAsin).foundSponsoredRank with _ | v
      · exact absurd ho hinv
      · simp [ho]
  have hbne : (p != 0) = true := by simpa using hp0
  have hnotinj : r.html.length < 500 →
      (validateBoundaryResult targetAsin r.html p
        results.length).validationChecks.notInjection = false := by
    intro hlen
    show verifyNotInjection r.html p = false
    unfold verifyNotInjection
    rw [if_pos hlen]
    split
    · rfl
    · rfl
  refine ⟨?_, ?_, hnotinj⟩
  · unfold calculateRanks
    dsimp only
    rw [hrank]
    simp only [Bool.false_eq_true, if_false]
  · unfold calculateRanks
    dsimp only
    rw [hrank]
    simp only [Bool.false_eq_true, if_false, hpos, hres, hbne, hzone,
      Bool.and_self, if_true]
    by_cases hq : quickValidateBoundaryResult targetAsin r.html = true
    · rw [if_pos hq]
      constructor
      · intro hcontra; cases hcontra
      · rintro ⟨hqf, _⟩
        rw [hq] at hqf; cases hqf
    · rw [if_neg hq]
      have hq2 : quickValidateBoundaryResult targetAsin r.html = false := by
        simpa using hq
      simp [hq2]

/-- C6 counterexample: the target found at boundary position 2 with markup
of fewer than 500 characters that passes the quick validation is returned
with `boundaryValidated = true`, contradicting the claim that short markup
at a boundary position always yields `boundaryValidated = false`. -/
theorem c6_counterexample :
    (calculateRanks quickPassPage demoAsin).found = true ∧
    (calculateRanks quickPassPage demoAsin).position = some 2 ∧
    isInBoundaryZone 2 quickPassPage.length = true ∧
    recQuickPass.html.length < 500 ∧
    (calculateRanks quickPassPage demoAsin).boundaryValidated = true := by
  decide

/-- C6 witness: the target at boundary position 2 with markup failing both
validations is surfaced as found with `boundaryValidated = false`. -/
theorem c6_witness :
    (calculateRanks shortPage demoAsin).found = true ∧
    (calculateRanks shortPage demoAsin).boundaryValidated = false := by
  have h := c6_boundary_amended shortPage demoAsin 2 recShortTarget
    (by decide) (by decide) (by decide) (by decide)
  exact ⟨h.1, (h.2.1).mpr ⟨by decide, by decide⟩⟩

/-- C3: when the target is first found on page `p + 1` after `p` clean
target-free pages, the reported cumulative ranks are the sums of the prior
pages' per-category totals plus the local ranks of the found page, latched
at the moment of the first match (the conclusion depends only on the pages
up to and including the found page, so later pages never revise it). -/
theorem c3_cumulative_rank (asin kw : String) (maxPages : Nat)
    (fetch : Nat → PageFetch) (p : Nat)
    (hp : p < maxPages)
    (hclean : ∀ j, 1 ≤ j → j ≤ p → cleanNotFound (fetch j) asin)
    (hcap : (fetch (p + 1)).captcha = false)
    (hnr : (fetch (p + 1)).noResults = false)
    (hld : (fetch (p + 1)).loadFailed = false)
    (hfound : (parsePage (fetch (p + 1)) asin).found = true) :
    executeSearch asin kw maxPages fetch = SearchOutcome.response
      { success := true
        data := some
          { asin := asin, keyword := kw
            organicRank := (parsePage (fetch (p + 1)) asin).organicRank.map
              (fun r => sumOrg fetch asin 1 p + r)
            sponsoredRank :=
              (parsePage (fetch (p + 1)) asin).sponsoredRank.map
                (fun r => sumSpon fetch asin 1 p + r)
            pageFound := some (p + 1)
            positionOnPage := (parsePage (fetch (p + 1)) asin).position
            totalResultsScanned := sumTot fetch asin 1 p +
              (parsePage (fetch (p + 1)) asin).totalResults
            scannedPages := p + 1 }
        error := none } := by
  unfold executeSearch
  obtain ⟨m, hm⟩ : ∃ m, maxPages = p + (m + 1) := ⟨maxPages - p - 1, by omega⟩
  rw [hm]
  rw [searchGo_skip asin kw (p + (m + 1)) fetch p (m + 1) 1 0 0 0
    (fun j hj => hclean (1 + j) (by omega) (by omega))]
  rw [show 1 + p = p + 1 from by omega]
  simp only [searchGo, hcap, hnr, hld, hfound, Bool.false_eq_true, if_false,
    if_true, Nat.zero_add]

/-- C3 witness: two-page scan with one organic record on page 1 and the
target as the first organic record of page 2; the cumulative organic rank
is 1 + 1 = 2. -/
theorem c3_witness :
    executeSearch demoAsin "kw" 2 demoFetch = SearchOutcome.response
      { success := true
        data := some
          { asin := demoAsin, keyword := "kw"
            organicRank := some 2, sponsoredRank := none
            pageFound := some 2, positionOnPage := some 1
            totalResultsScanned := 2, scannedPages := 2 }
        error := none } := by
  have h := c3_cumulative_rank demoAsin "kw" 2 demoFetch 1 (by decide)
    (fun j h1 h2 => by
      have hj : j = 1 := by omega
      subst hj
      exact ⟨by decide, by decide, by decide, by decide⟩)
    (by decide) (by decide) (by decide) (by decide)
  rw [h]
  decide

/-- C4 (amended): an explicit no-results indicator on page 1 makes the
session return the structured error response with code `asin_not_found`
(success is false), not a not-found success; on a later page, after clean
target-free pages, the session stops scanning and returns the not-found
success with null ranks. -/
theorem c4_no_results_amended (asin kw : String) (maxPages : Nat)
    (fetch : Nat → PageFetch) :
    (1 ≤ maxPages → (fetch 1).captcha = false → (fetch 1).noResults = true →
      executeSearch asin kw maxPages fetch = SearchOutcome.response
        (createErrorResponse ErrorCode.asin_not_found)) ∧
    (∀ p, 1 ≤ p → p + 1 ≤ maxPages →
      (∀ j, 1 ≤ j → j ≤ p → cleanNotFound (fetch j) asin) →
      (fetch (p + 1)).captcha = false → (fetch (p + 1)).noResults = true →
      executeSearch asin kw maxPages fetch = SearchOutcome.response
        (notFoundResponse asin kw (sumTot fetch asin 1 p) maxPages)) := by
  constructor
  · intro hmax hcap hnr
    unfold executeSearch
    obtain ⟨m, hm⟩ : ∃ m, maxPages = m + 1 := ⟨maxPages - 1, by omega⟩
    rw [hm]
    simp only [searchGo, hcap, hnr, Bool.false_eq_true, if_false, if_true,
      beq_self_eq_true]
  · intro p hp1 hpmax hclean hcap hnr
    unfold executeSearch
    obtain ⟨m, hm⟩ : ∃ m, maxPages = p + (m + 1) :=
      ⟨maxPages - p - 1, by omega⟩
    rw [hm]
    rw [searchGo_skip asin kw (p + (m + 1)) fetch p (m + 1) 1 0 0 0
      (fun j hj => hclean (1 + j) (by omega) (by omega))]
    rw [show 1 + p = p + 1 from by omega]
    have hne : ((p + 1 == 1) = false) := by
      simp only [beq_eq_false_iff_ne, ne_eq]
      omega
    simp only [searchGo, hcap, hnr, Bool.false_eq_true, if_false, if_true,
      hne, Nat.zero_add]

/-- C4 counterexample: with the no-results indicator on page 1 the session
returns the `asin_not_found` error response — success is false and no data
is attached — contradicting the claimed terminal not-found success. -/
theorem c4_counterexample :
    executeSearch demoAsin "kw" 2 fetchNR1 = SearchOutcome.response
      (createErrorResponse ErrorCode.asin_not_found) ∧
    (createErrorResponse ErrorCode.asin_not_found).success = false ∧
    (createErrorResponse ErrorCode.asin_not_found).data = none := by decide

/-- C4 witness: a clean target-free page 1 followed by a no-results page 2
in a three-page scan returns the not-found success immediately. -/
theorem c4_witness :
    executeSearch demoAsin "kw" 3 fetchNR2 = SearchOutcome.response
      (notFoundResponse demoAsin "kw" 1 3) := by
  have h := (c4_no_results_amended demoAsin "kw" 3 fetchNR2).2 1 (by decide)
    (by decide)
    (fun j h1 h2 => by
      have hj : j = 1 := by omega
      subst hj
      exact ⟨by decide, by decide, by decide, by decide⟩)
    (by decide) (by decide)
  rw [h]
  decide

/-- C8 (amended): the retry handler's `calculateBackoff` does compute
`min(base * 2 ^ attempt + jitter, maxBackoffMs)` with jitter below 500 and
so never exceeds the configured maximum; but the retry loop of
`checkAsinRank` applies the raw exponential `baseBackoffMs * 2 ^ i` with no
jitter and no cap, so its applied delays can exceed the configured maximum
backoff — see the counterexample. -/
theorem c8_backoff_amended (config : RetryConfig) :
    (∀ attempt jitter, jitter < 500 →
      calculateBackoff attempt config jitter =
        min (config.baseBackoffMs * 2 ^ attempt + jitter)
          config.maxBackoffMs ∧
      calculateBackoff attempt config jitter ≤ config.maxBackoffMs) ∧
    (∀ outcomes d, d ∈ (checkAsinRank config outcomes).2 →
      ∃ i, i < config.maxRetries ∧ d = config.baseBackoffMs * 2 ^ i) := by
  constructor
  · intro attempt jitter _
    exact ⟨rfl, Nat.min_le_right _ _⟩
  · intro outcomes d hd
    obtain ⟨i, _, h2, h3⟩ :=
      checkLoop_delays config outcomes 0 ErrorCode.unknown_error d hd
    exact ⟨i, h2, h3⟩

/-- C8 counterexample: with the retry configuration `checkAsinRank` builds
from a scraper configuration with base backoff 8000 ms (retaining the
default 8000 ms maximum), two retryable failures make the loop sleep 8000
and then 16000 ms — the second applied delay exceeds the configured
maximum backoff, contradicting the claimed cap. -/
theorem c8_counterexample :
    (checkAsinRank cfg8000 demoOutcomes).2 = [8000, 16000] ∧
    cfg8000.maxBackoffMs = 8000 ∧ 8000 < 16000 := by decide

/-- C8 witness: the capped formula at a concrete over-cap attempt, and the
raw exponential 16000 as an applied delay of the concrete loop run. -/
theorem c8_witness :
    calculateBackoff 4 DEFAULT_RETRY_CONFIG 100 ≤
      DEFAULT_RETRY_CONFIG.maxBackoffMs ∧
    ∃ i, i < cfg8000.maxRetries ∧ 16000 = cfg8000.baseBackoffMs * 2 ^ i :=
  ⟨((c8_backoff_amended DEFAULT_RETRY_CONFIG).1 4 100 (by decide)).2,
   (c8_backoff_amended cfg8000).2 demoOutcomes 16000 (by decide)⟩

/-- C9 (amended): for a request passing the identifier check, validation
accepts exactly when the raw, untrimmed keyword length lies in [2, 200] and
the keyword matches none of the script-injection patterns; the source
measures the keyword before trimming, not after — see the counterexample. -/
theorem c9_keyword_amended (req : RankCheckRequest)
    (ha : (req.asin == "" || !(asinPatternTest (jsToUpper req.asin))) =
      false) :
    validateInput req = none ↔
      (2 ≤ req.keyword.length ∧ req.keyword.length ≤ 200 ∧
        hasDangerousPattern req.keyword = false) := by
  unfold validateInput
  rw [ha]
  simp only [Bool.false_eq_true, if_false]
  by_cases h1 : (req.keyword == "" ||
      req.keyword.length < KEYWORD_CONSTRAINTS.minLength ||
      KEYWORD_CONSTRAINTS.maxLength < req.keyword.length) = true
  · rw [if_pos h1]
    simp only [KEYWORD_CONSTRAINTS, Bool.or_eq_true, beq_iff_eq,
      decide_eq_true_eq] at h1
    constructor
    · intro hcontra; cases hcontra
    · rintro ⟨hlo, hhi, _⟩
      rcases h1 with (hkw | hlt) | hgt
      · rw [hkw] at hlo
        have : ("" : String).length = 0 := rfl
        omega
      · omega
      · omega
  · rw [if_neg h1]
    simp only [KEYWORD_CONSTRAINTS, Bool.or_eq_true, beq_iff_eq,
      decide_eq_true_eq, not_or, Bool.not_eq_true] at h1
    obtain ⟨⟨_, hlt⟩, hgt⟩ := h1
    by_cases h2 : hasDangerousPattern req.keyword = true
    · rw [if_pos h2]
      constructor
      · intro hcontra; cases hcontra
      · rintro ⟨_, _, hfalse⟩
        rw [h2] at hfalse; cases hfalse
    · rw [if_neg h2]
      simp only [Bool.not_eq_true] at h2
      simp only [h2, and_true, true_iff]
      omega

/-- C9 counterexample: the keyword consisting of a letter and a space has
raw length 2 and passes validation with a valid identifier, although its
trimmed length is 1, outside the claimed [2, 200] bound on the trimmed
length. -/
theorem c9_counterexample :
    validateInput reqTrimGap = none ∧
    trimmedLength reqTrimGap.keyword = 1 ∧
    trimmedLength reqTrimGap.keyword < KEYWORD_CONSTRAINTS.minLength := by
  decide

/-- C9 witness: a plainly valid request passes validation. -/
theorem c9_witness : validateInput reqGood = none :=
  (c9_keyword_amended reqGood (by decide)).mpr
    ⟨by decide, by decide, by decide⟩
